import Mathlib

/-!
Verification of the wasefire `api-desc` USB serial schema and the
`hash_test` applet vectors, as a shallow embedding in Lean 4.

The schema data model (`Item`, `Mod`, `Fn`, `Enum`, `Field`) is embedded
from its use in `src/crates/api-desc/src/usb/serial.rs`: the `item!`
macro there builds exactly the tagged-variant tree below, where each
doc-comment line becomes one entry of a `docs` list, each function keeps
its descriptive name and short linkage symbol, and each field keeps its
declared type (`usize`, `isize`, `*const u8`, `*mut u8`, or a function
pointer with its own field list).
-/

set_option maxRecDepth 8192

namespace Wasefire

mutual

/-- Type of a schema `Field`: a pointer-sized integer (`usize` when
`signed = false`, `isize` when `signed = true`), a raw byte pointer
(`*mut u8` when `mutable = true`, `*const u8` otherwise), or a function
pointer carrying its own parameter fields. -/
inductive FieldType : Type where
  | integer (signed : Bool) : FieldType
  | pointer (mutable : Bool) : FieldType
  | function (params : FieldList) : FieldType

/-- One parameter or result of a schema function: documentation lines,
name, and type. -/
inductive Field : Type where
  | mk (docs : List String) (name : String) (ftype : FieldType) : Field

/-- A list of fields (spelled out so that `FieldType.function` can nest
fields without a nested-inductive encoding). -/
inductive FieldList : Type where
  | nil : FieldList
  | cons (head : Field) (tail : FieldList) : FieldList

end

/-- Documentation lines of a field. -/
def Field.docs : Field → List String
  | .mk d _ _ => d

/-- Name of a field. -/
def Field.name : Field → String
  | .mk _ n _ => n

/-- Type of a field. -/
def Field.ftype : Field → FieldType
  | .mk _ _ t => t

/-- Turn a `FieldList` into an ordinary list. -/
def FieldList.toList : FieldList → List Field
  | .nil => []
  | .cons h t => h :: t.toList

/-- One enumeration variant: documentation, name, and its explicit
integer discriminant. -/
structure Variant : Type where
  docs : List String
  name : String
  value : Nat

/-- An enumeration item: documentation, name, and ordered variants. -/
structure Enum : Type where
  docs : List String
  name : String
  variants : List Variant

/-- A function item: documentation, descriptive name, linkage symbol
(`link`), ordered parameters and ordered results. -/
structure Fn : Type where
  docs : List String
  name : String
  link : String
  params : List Field
  results : List Field

mutual

/-- A schema item: an enumeration, a function, or a module. -/
inductive Item : Type where
  | enum (e : Enum) : Item
  | fn (f : Fn) : Item
  | mod (m : Mod) : Item

/-- A module item: documentation, name, and an ordered list of child
items. -/
inductive Mod : Type where
  | mk (docs : List String) (name : String) (items : ItemList) : Mod

/-- A list of items (spelled out so that `Mod` can own children without
a nested-inductive encoding). -/
inductive ItemList : Type where
  | nil : ItemList
  | cons (head : Item) (tail : ItemList) : ItemList

end

/-- Documentation lines of a module. -/
def Mod.docs : Mod → List String
  | .mk d _ _ => d

/-- Name of a module. -/
def Mod.name : Mod → String
  | .mk _ n _ => n

/-- Child items of a module. -/
def Mod.items : Mod → ItemList
  | .mk _ _ i => i

/-- Turn an `ItemList` into an ordinary list. -/
def ItemList.toList : ItemList → List Item
  | .nil => []
  | .cons h t => h :: t.toList

/-- The schema tree built by `serial::new()` in
`src/crates/api-desc/src/usb/serial.rs`. The module docs are the empty
`docs!()`; every other docs list holds the `///` lines verbatim (a blank
`///` line is an empty string). -/
def serial_new : Item :=
  .mod (.mk [] ("serial") (
    .cons (.fn {
      docs := ["Reads from USB serial into a buffer."]
      name := ("read"), link := ("usr")
      params := [
        .mk ["Address of the buffer."] ("ptr") (.pointer true),
        .mk ["Length of the buffer in bytes."] ("len") (.integer false)]
      results := [
        .mk ["Number of bytes read (or negative value for errors).", "",
             "This function does not block and may return zero."]
          ("len") (.integer true)] }) (
    .cons (.fn {
      docs := ["Writes to USB serial from a buffer."]
      name := ("write"), link := ("usw")
      params := [
        .mk ["Address of the buffer."] ("ptr") (.pointer false),
        .mk ["Length of the buffer in bytes."] ("len") (.integer false)]
      results := [
        .mk ["Number of bytes written (or negative value for errors).", "",
             "This function does not block and may return zero."]
          ("len") (.integer true)] }) (
    .cons (.enum {
      docs := ["USB serial events."]
      name := ("Event")
      variants := [
        { docs := ["Ready for read."], name := ("Read"), value := 0 },
        { docs := ["Ready for write."], name := ("Write"), value := 1 }] }) (
    .cons (.fn {
      docs := ["Registers a callback when USB serial is ready.", "",
               "It is possible that the callback is spuriously called."]
      name := ("register"), link := ("use")
      params := [
        .mk [] ("event") (.integer false),
        .mk [] ("handler_func")
          (.function (.cons (.mk [] ("data") (.pointer false)) .nil)),
        .mk [] ("handler_data") (.pointer false)]
      results := [] }) (
    .cons (.fn {
      docs := ["Unregisters a callback."]
      name := ("unregister"), link := ("usd")
      params := [.mk [] ("event") (.integer false)]
      results := [] }) (
    .cons (.fn {
      docs := ["Flushs the USB serial."]
      name := ("flush"), link := ("usf")
      params := []
      results := [.mk ["Zero on success, -1 on error."] ("res") (.integer true)] })
    .nil)))))))

mutual

/-- All linkage symbols carried by functions anywhere in an item tree,
in document order. -/
def Item.symbols : Item → List String
  | .enum _ => []
  | .fn f => [f.link]
  | .mod (.mk _ _ items) => ItemList.symbols items

/-- All linkage symbols of a list of items. -/
def ItemList.symbols : ItemList → List String
  | .nil => []
  | .cons h t => h.symbols ++ t.symbols

end

/-- The module wrapped by `serial_new` (it is a `Mod` at the root). -/
def serialMod : Mod :=
  match serial_new with
  | .mod m => m
  | _ => .mk [] ("") .nil

/-- The six child items of the serial module, as an ordinary list. -/
def serialItems : List Item := serialMod.items.toList

/-- The function stored at a given item, if any. -/
def Item.fnOf : Item → Option Fn
  | .fn f => some f
  | _ => none

/-- The enumeration stored at a given item, if any. -/
def Item.enumOf : Item → Option Enum
  | .enum e => some e
  | _ => none

/-- The function at position `i` of the serial module, if any. -/
def serialFn (i : Nat) : Option Fn := (serialItems[i]?).bind Item.fnOf

/-- The enumeration at position `i` of the serial module, if any. -/
def serialEnum (i : Nat) : Option Enum := (serialItems[i]?).bind Item.enumOf

/-- The externally visible signature of a function: descriptive name,
linkage symbol, parameter shapes and result shapes (name and type, in
order). -/
def Fn.sig (f : Fn) :
    String × String × List (String × FieldType) × List (String × FieldType) :=
  (f.name, f.link,
   f.params.map (fun p => (p.name, p.ftype)),
   f.results.map (fun p => (p.name, p.ftype)))

/-- The externally visible signature of an enumeration: name and the
ordered (variant name, discriminant) pairs. -/
def Enum.sig (e : Enum) : String × List (String × Nat) :=
  (e.name, e.variants.map (fun v => (v.name, v.value)))

mutual

/-- Whether a field and, recursively, the parameter fields of a
function-pointer typed field, all carry at least one documentation
line. -/
def Field.deepDocumented : Field → Bool
  | .mk d _ t => !d.isEmpty && FieldType.fieldsDocumented t

/-- Whether the fields nested in a field type are all documented. -/
def FieldType.fieldsDocumented : FieldType → Bool
  | .function ps => FieldList.allDocumented ps
  | _ => true

/-- Whether every field of a field list is (deeply) documented. -/
def FieldList.allDocumented : FieldList → Bool
  | .nil => true
  | .cons h t => h.deepDocumented && t.allDocumented

end

mutual

/-- Whether every node of an item tree — the item itself, enumeration
variants, and every parameter and result field — carries a non-empty
documentation list. -/
def Item.allDocumented : Item → Bool
  | .enum e => !e.docs.isEmpty && e.variants.all (fun v => !v.docs.isEmpty)
  | .fn f => !f.docs.isEmpty && f.params.all Field.deepDocumented
      && f.results.all Field.deepDocumented
  | .mod (.mk d _ items) => !d.isEmpty && ItemList.allDocumented items

/-- Whether every node of a list of item trees is documented. -/
def ItemList.allDocumented : ItemList → Bool
  | .nil => true
  | .cons h t => h.allDocumented && t.allDocumented

end

/-- Modelled from the spec: the signed result convention of the
marshaling contract (spec section 4.2; the contract itself is not under
src/). A negative value signals an error regardless of magnitude. -/
def resultIsFailure (r : Int) : Bool := decide (r < 0)

/-- Modelled from the spec: the signed result convention of the
marshaling contract. Zero or a positive value is a successful outcome,
including zero itself. -/
def resultIsSuccess (r : Int) : Bool := decide (0 ≤ r)

/-- Modelled from the spec: the behaviour of the described `read`
operation (its implementation is not under src/). Given the number of
bytes currently available on the host side and the guest buffer length,
`read` copies `min available len` bytes and returns that count — it
never blocks (it is a total function) and it returns zero when no data
is available, which is a success. Errors are the negative values, not
produced on this happy path. -/
def readModel (available : Nat) (len : Nat) : Int :=
  Int.ofNat (min available len)

/-- Modelled from the spec: every buffer length, including zero, is a
legal argument to `read` (the schema places no constraint on `len`
beyond its `usize` type). -/
def readCallLegal (len : Nat) : Bool :=
  decide (len ≤ len)

/-- Modelled from the spec: registration state of one event identifier
in the callback state machine of spec section 4.3 (the host-side state
machine is not under src/): either `Unregistered`, or `Registered` with
the guest handler function pointer and opaque context. -/
inductive EventState : Type where
  | unregistered : EventState
  | registered (handler : Nat) (context : Nat) : EventState
deriving DecidableEq

/-- Modelled from the spec: the two event identifiers of the serial
module's `Event` enumeration, `Read = 0` and `Write = 1`. -/
inductive EventId : Type where
  | read : EventId
  | write : EventId
deriving DecidableEq

/-- Modelled from the spec: the per-module callback registration state,
one `EventState` per event identifier of the serial module. -/
structure SerialState : Type where
  readState : EventState
  writeState : EventState
deriving DecidableEq

/-- State of one event identifier. -/
def SerialState.get : SerialState → EventId → EventState
  | s, .read => s.readState
  | s, .write => s.writeState

/-- Replace the state of one event identifier. -/
def SerialState.set : SerialState → EventId → EventState → SerialState
  | s, .read, e => { s with readState := e }
  | s, .write, e => { s with writeState := e }

/-- Modelled from the spec: `register(event, handler, context)` moves
the event to `Registered` (overwrite policy on re-registration, the
spec's recommended reading). -/
def SerialState.register (s : SerialState) (e : EventId)
    (handler context : Nat) : SerialState :=
  s.set e (.registered handler context)

/-- Modelled from the spec: `unregister(event)` moves the event to
`Unregistered`; it always succeeds, and is a no-op when the event is
already `Unregistered`. -/
def SerialState.unregister (s : SerialState) (e : EventId) : SerialState :=
  s.set e .unregistered

/-- Modelled from the spec: decode a runtime event value into an event
identifier; exactly the declared discriminants 0 and 1 are accepted. -/
def decodeEvent (n : Nat) : Option EventId :=
  if n = 0 then some .read else if n = 1 then some .write else none

/-- Modelled from the spec: the `register` syscall as seen from the
guest, taking the raw event value; it fails (returns `none`) on any
value that is not a declared discriminant. -/
def registerCall (s : SerialState) (n handler context : Nat) :
    Option SerialState :=
  (decodeEvent n).map (fun e => s.register e handler context)

/-- Modelled from the spec: the `unregister` syscall as seen from the
guest, taking the raw event value; it fails (returns `none`) on any
value that is not a declared discriminant. -/
def unregisterCall (s : SerialState) (n : Nat) : Option SerialState :=
  (decodeEvent n).map s.unregister

/-- The declared discriminants of the `Event` enumeration of the serial
module, read off the schema tree. -/
def serialEventValues : List Nat :=
  (((serialEnum 2).map (fun e => e.variants.map Variant.value)).getD [])

/-- Modelled from the spec: the validation errors of spec section 4.5
(the validator is not under src/). -/
inductive SchemaError : Type where
  | duplicateSymbol : SchemaError
  | duplicateEventId : SchemaError
  | malformedField : SchemaError
  | missingDocumentation : SchemaError
deriving DecidableEq

/-- Whether a field type is an unsigned (pointer-sized) integer. -/
def FieldType.isUnsignedInt : FieldType → Bool
  | .integer false => true
  | _ => false

/-- Whether a field type is a raw pointer. -/
def FieldType.isPointer : FieldType → Bool
  | .pointer _ => true
  | _ => false

/-- Whether a field type is a function pointer. -/
def FieldType.isFunction : FieldType → Bool
  | .function _ => true
  | _ => false

/-- Modelled from the spec: well-formedness of an ordered field list
(spec sections 3 and 4.1). Integer widths in the model are the
pointer-sized ones, which are supported, so only the pointer pairing
can fail: a raw pointer field must either be followed by its companion
unsigned length field (a buffer), or directly follow a function-pointer
field (the opaque context of a callback handle). `prev` is the type of
the preceding field, if any. -/
def fieldsWellFormed : Option FieldType → List Field → Bool
  | _, [] => true
  | prev, f :: rest =>
    (if f.ftype.isPointer then
      (match rest with
       | g :: _ => g.ftype.isUnsignedInt
       | [] => false)
      || (match prev with
          | some t => t.isFunction
          | none => false)
     else true)
    && fieldsWellFormed (some f.ftype) rest

/-- Whether the parameter and result lists of a function are
well-formed. -/
def Fn.fieldsOk (f : Fn) : Bool :=
  fieldsWellFormed none f.params && fieldsWellFormed none f.results

/-- Whether an enumeration has pairwise distinct discriminants. -/
def Enum.valuesNodup (e : Enum) : Bool :=
  decide (e.variants.map Variant.value).Nodup

mutual

/-- Whether every function in an item tree has well-formed fields. -/
def Item.fieldsOk : Item → Bool
  | .enum _ => true
  | .fn f => f.fieldsOk
  | .mod (.mk _ _ items) => ItemList.fieldsOk items

/-- Whether every function in a list of item trees has well-formed
fields. -/
def ItemList.fieldsOk : ItemList → Bool
  | .nil => true
  | .cons h t => h.fieldsOk && t.fieldsOk

end

mutual

/-- Whether every enumeration in an item tree has pairwise distinct
discriminants. -/
def Item.enumsOk : Item → Bool
  | .enum e => e.valuesNodup
  | .fn _ => true
  | .mod (.mk _ _ items) => ItemList.enumsOk items

/-- Whether every enumeration in a list of item trees has pairwise
distinct discriminants. -/
def ItemList.enumsOk : ItemList → Bool
  | .nil => true
  | .cons h t => h.enumsOk && t.enumsOk

end

mutual

/-- Whether every item (module, function, enumeration) of a tree
carries non-empty documentation. -/
def Item.itemsDocumented : Item → Bool
  | .enum e => !e.docs.isEmpty
  | .fn f => !f.docs.isEmpty
  | .mod (.mk d _ items) => !d.isEmpty && ItemList.itemsDocumented items

/-- Whether every item of a list of trees carries non-empty
documentation. -/
def ItemList.itemsDocumented : ItemList → Bool
  | .nil => true
  | .cons h t => h.itemsDocumented && t.itemsDocumented

end

/-- Modelled from the spec: the validator of spec section 4.5 (not
under src/). It walks the assembled tree once and reports every rule
that fails: global linkage-symbol uniqueness, per-enumeration
discriminant uniqueness, field well-formedness, and item
documentation. -/
def validate (root : Item) : List SchemaError :=
  (if (Item.symbols root).Nodup then [] else [.duplicateSymbol])
  ++ (if root.enumsOk then [] else [.duplicateEventId])
  ++ (if root.fieldsOk then [] else [.malformedField])
  ++ (if root.itemsDocumented then [] else [.missingDocumentation])

/-- Modelled from the spec: the generation run. Validation runs first;
an artifact (the validated schema handed to the generators) is emitted
only from a schema with no validation errors, so every validation error
is fatal. -/
def generateArtifact (root : Item) : Except (List SchemaError) Item :=
  match validate root with
  | [] => .ok root
  | errors => .error errors

/-- A schema in which two functions share the linkage symbol usr: a
module holding two minimal documented functions both linked as usr. -/
def badSchema : Item :=
  .mod (.mk ["A module with a duplicate symbol."] ("bad") (
    .cons (.fn { docs := ["First function."], name := ("f1"),
                 link := ("usr"), params := [], results := [] }) (
    .cons (.fn { docs := ["Second function."], name := ("f2"),
                 link := ("usr"), params := [], results := [] })
    .nil)))

/-- One run of `serial::new()`: the Rust function takes no argument and
reads no external state, so its embedding is a function out of
`Unit`. -/
def serialNewRun : Unit → Item := fun _ => serial_new

/-!
The `hash_test` applet in `src/examples/rust/hash_test/src/lib.rs`
computes SHA-256 digests and HMAC-SHA256 macs of stored NIST CAVP test
vectors and asserts that each computed value equals the stored one. The
hash implementations live behind `wasefire::crypto::hash`, outside
src/, so they are modelled here from their specification (FIPS 180-4
for SHA-256 and RFC 2104 for HMAC), executable over byte lists with
32-bit words as naturals reduced mod 2^32.
-/

/-- Reduce a natural to a 32-bit word. -/
def w32 (n : Nat) : Nat := n % 4294967296

/-- Right rotation of a 32-bit word by `n` bits. -/
def rotr32 (n x : Nat) : Nat := w32 ((x >>> n) ||| (x <<< (32 - n)))

/-- Modelled from the spec: the SHA-256 choice function
`ch e f g = (e ∧ f) ⊕ (¬e ∧ g)` on 32-bit words. -/
def shaCh (e f g : Nat) : Nat := (e &&& f) ^^^ ((e ^^^ 4294967295) &&& g)

/-- Modelled from the spec: the SHA-256 majority function. -/
def shaMaj (a b c : Nat) : Nat := (a &&& b) ^^^ (a &&& c) ^^^ (b &&& c)

/-- Modelled from the spec: the SHA-256 big sigma-0 function. -/
def bigSigma0 (a : Nat) : Nat := rotr32 2 a ^^^ rotr32 13 a ^^^ rotr32 22 a

/-- Modelled from the spec: the SHA-256 big sigma-1 function. -/
def bigSigma1 (e : Nat) : Nat := rotr32 6 e ^^^ rotr32 11 e ^^^ rotr32 25 e

/-- Modelled from the spec: the SHA-256 small sigma-0 function. -/
def smallSigma0 (x : Nat) : Nat := rotr32 7 x ^^^ rotr32 18 x ^^^ (x >>> 3)

/-- Modelled from the spec: the SHA-256 small sigma-1 function. -/
def smallSigma1 (x : Nat) : Nat := rotr32 17 x ^^^ rotr32 19 x ^^^ (x >>> 10)

/-- Modelled from the spec: the 64 SHA-256 round constants. -/
def shaK : List Nat := [
  1116352408, 1899447441, 3049323471, 3921009573, 961987163,
  1508970993, 2453635748, 2870763221, 3624381080, 310598401,
  607225278, 1426881987, 1925078388, 2162078206, 2614888103,
  3248222580, 3835390401, 4022224774, 264347078, 604807628,
  770255983, 1249150122, 1555081692, 1996064986, 2554220882,
  2821834349, 2952996808, 3210313671, 3336571891, 3584528711,
  113926993, 338241895, 666307205, 773529912, 1294757372,
  1396182291, 1695183700, 1986661051, 2177026350, 2456956037,
  2730485921, 2820302411, 3259730800, 3345764771, 3516065817,
  3600352804, 4094571909, 275423344, 430227734, 506948616,
  659060556, 883997877, 958139571, 1322822218, 1537002063,
  1747873779, 1955562222, 2024104815, 2227730452, 2361852424,
  2428436474, 2756734187, 3204031479, 3329325298]

/-- Modelled from the spec: the SHA-256 initial hash value. -/
def shaInit : List Nat := [
  1779033703, 3144134277, 1013904242,
  2773480762, 1359893119, 2600822924,
  528734635, 1541459225]

/-- Group a byte list into big-endian 32-bit words, four bytes per
word. -/
def toWords : List Nat → List Nat
  | a :: b :: c :: d :: rest =>
    (a * 16777216 + b * 65536 + c * 256 + d) :: toWords rest
  | _ => []

/-- The four big-endian bytes of a 32-bit word. -/
def beBytes4 (w : Nat) : List Nat :=
  [(w >>> 24) % 256, (w >>> 16) % 256, (w >>> 8) % 256, w % 256]

/-- The eight big-endian bytes of a 64-bit length. -/
def beBytes8 (n : Nat) : List Nat :=
  [(n >>> 56) % 256, (n >>> 48) % 256, (n >>> 40) % 256,
   (n >>> 32) % 256, (n >>> 24) % 256, (n >>> 16) % 256,
   (n >>> 8) % 256, n % 256]

/-- Modelled from the spec: SHA-256 padding — a 0x80 byte, zeros up to
56 mod 64, and the bit length as an eight-byte big-endian integer. -/
def padMessage (msg : List Nat) : List Nat :=
  msg ++ [128]
    ++ List.replicate ((64 - (msg.length + 9) % 64) % 64) 0
    ++ beBytes8 (8 * msg.length)

/-- Modelled from the spec: extend the 16 words of a block to the
64-word SHA-256 message schedule. -/
def schedule (ws : List Nat) : List Nat :=
  (List.range 48).foldl
    (fun acc _ =>
      let k := acc.length
      acc ++ [w32 (acc.getD (k - 16) 0 + smallSigma0 (acc.getD (k - 15) 0)
        + acc.getD (k - 7) 0 + smallSigma1 (acc.getD (k - 2) 0))])
    ws

/-- Modelled from the spec: one SHA-256 round on the eight-word working
state, at a given round index. -/
def roundStep (ws : List Nat) (st : List Nat) (i : Nat) : List Nat :=
  match st with
  | [a, b, c, d, e, f, g, h] =>
    let t1 := w32 (h + bigSigma1 e + shaCh e f g
      + shaK.getD i 0 + ws.getD i 0)
    let t2 := w32 (bigSigma0 a + shaMaj a b c)
    [w32 (t1 + t2), a, b, c, w32 (d + t1), e, f, g]
  | other => other

/-- Modelled from the spec: the SHA-256 compression function on one
64-byte block. -/
def compressBlock (h : List Nat) (block : List Nat) : List Nat :=
  let ws := schedule (toWords block)
  let st := (List.range 64).foldl (roundStep ws) h
  List.zipWith (fun x y => w32 (x + y)) h st

/-- Split a list into `n` successive chunks of 64 elements. -/
def chunks64 : Nat → List Nat → List (List Nat)
  | 0, _ => []
  | n + 1, l => l.take 64 :: chunks64 n (l.drop 64)

/-- Modelled from the spec: the SHA-256 digest of a byte list, as its
32 digest bytes. -/
def sha256 (msg : List Nat) : List Nat :=
  let p := padMessage msg
  let hs := (chunks64 (p.length / 64) p).foldl compressBlock shaInit
  (hs.map beBytes4).flatten

/-- Modelled from the spec: HMAC-SHA256 of a key and message (RFC
2104 with a 64-byte block): the key is hashed if longer than a block,
zero-padded to the block size, and the digest is
`H((k ⊕ opad) ++ H((k ⊕ ipad) ++ msg))`. -/
def hmacSha256 (key msg : List Nat) : List Nat :=
  let k0 := if 64 < key.length then sha256 key else key
  let k := k0 ++ List.replicate (64 - k0.length) 0
  let inner := sha256 ((k.map (fun b => b ^^^ 54)) ++ msg)
  sha256 ((k.map (fun b => b ^^^ 92)) ++ inner)

/-- One SHA-256 test vector of the hash_test applet: a message and its
expected digest. -/
structure Vector : Type where
  message : List Nat
  digest : List Nat

/-- One HMAC-SHA256 test vector of the hash_test applet: a counter, a
key, a message and the expected mac. -/
structure HmacVector : Type where
  count : Nat
  key : List Nat
  msg : List Nat
  mac : List Nat

/-- The stored SHA-256 test vectors of the hash_test applet
(`SHA256_VECTORS` in src/examples/rust/hash_test/src/lib.rs),
transcribed in decimal. -/
def SHA256_VECTORS : List Vector := [
  { message := [],
    digest := [227, 176, 196, 66, 152, 252, 28, 20, 154, 251, 244, 200, 153, 111, 185, 36, 39, 174, 65, 228, 100, 155, 147, 76, 164, 149, 153, 27, 120, 82, 184, 85] },
  { message := [211],
    digest := [40, 150, 156, 223, 167, 74, 18, 200, 47, 59, 173, 150, 11, 11, 0, 10, 202, 42, 195, 41, 222, 234, 92, 35, 40, 235, 198, 242, 186, 152, 2, 193] },
  { message := [17, 175],
    digest := [92, 167, 19, 63, 167, 53, 50, 96, 129, 85, 138, 195, 18, 198, 32, 238, 202, 153, 112, 209, 231, 10, 75, 149, 83, 61, 149, 111, 7, 45, 31, 152] },
  { message := [116, 203, 147, 129, 216, 159, 90, 167, 51, 104],
    digest := [115, 214, 250, 209, 202, 170, 117, 180, 59, 33, 115, 53, 97, 253, 57, 88, 189, 197, 85, 25, 74, 3, 124, 42, 221, 236, 25, 220, 45, 122, 82, 189] },
  { message := [10, 39, 132, 124, 220, 152, 189, 111, 98, 34, 11, 4, 110, 221, 118, 43],
    digest := [128, 194, 94, 193, 96, 5, 135, 231, 242, 139, 24, 177, 177, 142, 60, 220, 137, 146, 142, 57, 202, 179, 188, 37, 228, 212, 164, 193, 57, 188, 237, 196] },
  { message := [7, 119, 252, 30, 28, 164, 115, 4, 194, 226, 101, 105, 40, 56, 16, 158, 38, 170, 185, 229, 196, 174, 78, 134, 0, 223, 75, 31],
    digest := [255, 180, 252, 3, 224, 84, 248, 236, 188, 49, 71, 15, 192, 35, 190, 220, 212, 164, 6, 185, 221, 86, 199, 29, 161, 182, 96, 220, 196, 132, 44, 101] },
  { message := [157, 100, 222, 113, 97, 137, 88, 132, 231, 250, 61, 110, 158, 185, 150, 231, 235, 229, 17, 176, 31, 225, 156, 212, 166, 179, 50, 46, 128, 170, 245, 43, 246, 68, 126, 209, 133, 78, 113, 0, 31, 77, 84, 248, 147, 29],
    digest := [208, 72, 238, 21, 36, 1, 74, 223, 154, 86, 230, 10, 56, 130, 119, 222, 25, 76, 105, 76, 199, 135, 252, 90, 27, 85, 78, 169, 240, 122, 191, 223] }]

/-- The stored HMAC-SHA256 test vectors of the hash_test applet
(`HMAC_SHA256_VECTORS` in src/examples/rust/hash_test/src/lib.rs),
transcribed in decimal. -/
def HMAC_SHA256_VECTORS : List HmacVector := [
  { count := 30,
    key := [151, 121, 217, 18, 6, 66, 121, 127, 23, 71, 2, 93, 91, 34, 183, 172, 96, 124, 171, 8, 225, 117, 143, 47, 58, 70, 200, 190, 30, 37, 197, 59, 140, 106, 143, 88, 255, 239, 161, 118],
    msg := [177, 104, 156, 37, 145, 234, 243, 201, 230, 96, 112, 248, 167, 121, 84, 255, 184, 23, 73, 241, 176, 3, 70, 249, 223, 224, 178, 238, 144, 93, 204, 40, 139, 175, 74, 146, 222, 63, 64, 1, 221, 159, 68, 196, 104, 195, 208, 125, 108, 110, 232, 47, 172, 234, 252, 151, 194, 252, 15, 192, 96, 23, 25, 210, 220, 208, 170, 42, 236, 146, 209, 176, 174, 147, 60, 101, 235, 6, 160, 60, 156, 147, 92, 43, 173, 4, 89, 129, 2, 65, 52, 122, 184, 126, 159, 17, 173, 179, 4, 21, 66, 76, 108, 127, 95, 34, 160, 3, 184, 171, 141, 229, 79, 109, 237, 14, 58, 185, 36, 95, 167, 149, 104, 69, 29, 250, 37, 142],
    mac := [118, 159, 0, 211, 230, 166, 204, 31, 180, 38, 161, 74, 79, 118, 198, 70, 46, 97, 73, 114, 110, 13, 238, 14, 192, 207, 151, 161, 102, 5, 172, 139] },
  { count := 31,
    key := [9, 103, 95, 45, 204, 71, 131, 181, 153, 241, 143, 183, 101, 88, 54, 104, 160, 253, 138, 228, 9, 111, 111, 205, 198, 13, 79, 53, 180, 19, 15, 190, 252, 213, 66, 255, 231, 69, 157, 42],
    msg := [12, 242, 25, 140, 49, 55, 111, 92, 137, 21, 102, 1, 55, 114, 95, 43, 188, 24, 10, 152, 110, 90, 123, 218, 39, 250, 129, 89, 58, 74, 51, 155, 171, 146, 203, 195, 159, 178, 184, 88, 17, 8, 238, 72, 199, 148, 129, 45, 132, 90, 114, 206, 128, 8, 201, 233, 21, 217, 227, 48, 187, 185, 14, 145, 54, 170, 83, 186, 14, 102, 147, 221, 64, 70, 214, 176, 51, 98, 223, 185, 237, 250, 4, 200, 135, 21, 60, 197, 222, 103, 122, 171, 140, 120, 57, 213, 23, 3, 88, 121, 103, 156, 41, 114, 126, 150, 197, 66, 99, 36, 162, 87, 95, 190, 103, 141, 108, 199, 254, 245, 235, 108, 235, 213, 149, 207, 221, 239],
    mac := [107, 20, 45, 77, 254, 33, 127, 24, 129, 170, 14, 100, 131, 178, 113, 221, 93, 67, 247, 11, 133, 96, 89, 83, 160, 254, 242, 114, 221, 222, 70, 202] },
  { count := 32,
    key := [207, 212, 164, 73, 16, 201, 229, 103, 80, 122, 187, 108, 237, 228, 254, 96, 26, 122, 39, 101, 201, 117, 90, 162, 207, 107, 164, 129, 66, 35, 129, 26, 38, 168, 161, 239, 73, 156, 235, 217],
    msg := [63, 179, 1, 203, 64, 146, 249, 98, 58, 165, 255, 214, 144, 210, 45, 101, 213, 110, 90, 28, 51, 11, 156, 74, 13, 145, 12, 52, 227, 145, 201, 10, 118, 213, 64, 26, 45, 60, 170, 68, 184, 197, 213, 174, 243, 233, 40, 185, 13, 46, 226, 51, 233, 249, 162, 206, 196, 163, 44, 208, 25, 208, 106, 13, 193, 252, 177, 18, 95, 87, 70, 164, 251, 211, 33, 105, 237, 123, 240, 228, 253, 6, 95, 167, 200, 172, 151, 195, 102, 56, 4, 132, 73, 95, 92, 91, 104, 80, 221, 28, 157, 140, 214, 105, 76, 248, 104, 110, 70, 48, 142, 208, 237, 31, 91, 223, 152, 205, 131, 19, 57, 119, 29, 182, 61, 229, 167, 222],
    mac := [32, 21, 59, 248, 234, 41, 83, 196, 130, 81, 235, 204, 65, 97, 248, 182, 226, 132, 153, 229, 199, 108, 36, 1, 76, 255, 74, 158, 47, 98, 210, 92] },
  { count := 33,
    key := [84, 72, 153, 143, 157, 143, 152, 83, 74, 221, 240, 200, 186, 99, 28, 73, 107, 248, 168, 0, 108, 187, 70, 173, 21, 250, 31, 162, 245, 83, 103, 18, 12, 25, 52, 140, 58, 250, 144, 195],
    msg := [28, 67, 150, 247, 183, 249, 34, 142, 131, 42, 19, 105, 32, 2, 186, 42, 255, 67, 157, 203, 127, 221, 191, 212, 86, 192, 34, 209, 51, 238, 137, 3, 162, 212, 130, 86, 47, 218, 164, 147, 206, 57, 22, 215, 122, 12, 81, 68, 29, 171, 38, 246, 176, 52, 2, 56, 163, 106, 113, 248, 127, 195, 225, 121, 202, 188, 169, 72, 43, 112, 73, 113, 206, 105, 243, 242, 10, 182, 75, 112, 65, 61, 108, 41, 8, 83, 43, 42, 136, 138, 159, 194, 36, 202, 225, 54, 93, 164, 16, 182, 242, 226, 152, 144, 75, 99, 180, 164, 23, 38, 50, 24, 53, 164, 119, 77, 208, 99, 194, 17, 207, 200, 181, 22, 108, 45, 17, 162],
    mac := [126, 140, 186, 157, 217, 240, 110, 189, 215, 249, 46, 15, 26, 103, 199, 244, 223, 82, 105, 60, 33, 43, 221, 132, 246, 115, 112, 179, 81, 83, 60, 108] },
  { count := 34,
    key := [157, 160, 193, 20, 104, 47, 130, 193, 209, 233, 181, 68, 48, 88, 11, 156, 86, 148, 137, 202, 22, 185, 46, 225, 4, 152, 213, 93, 124, 173, 93, 181, 230, 82, 6, 52, 57, 49, 30, 4],
    msg := [73, 83, 64, 139, 227, 221, 222, 66, 82, 30, 182, 37, 163, 122, 240, 210, 207, 158, 209, 132, 245, 182, 39, 229, 231, 224, 232, 36, 232, 225, 22, 72, 180, 24, 229, 196, 193, 176, 32, 75, 197, 25, 201, 229, 120, 184, 0, 67, 155, 221, 37, 79, 57, 246, 65, 8, 45, 3, 162, 141, 228, 74, 198, 119, 100, 76, 123, 108, 141, 247, 67, 242, 159, 29, 253, 128, 253, 37, 194, 219, 49, 1, 14, 160, 47, 96, 32, 28, 222, 36, 163, 100, 212, 22, 141, 162, 97, 216, 72, 174, 208, 28, 16, 222, 233, 20, 156, 30, 187, 41, 0, 67, 152, 240, 210, 156, 96, 90, 139, 202, 3, 43, 49, 210, 65, 173, 51, 113],
    mac := [205, 234, 207, 206, 191, 70, 204, 157, 126, 77, 65, 117, 229, 216, 210, 103, 194, 58, 100, 205, 232, 62, 134, 126, 80, 1, 236, 242, 111, 189, 48, 210] }]

/-- The check performed by the `test` function of the hash_test applet
on the SHA-256 vectors: every computed digest equals the stored one. -/
def shaVectorsPass : Bool :=
  SHA256_VECTORS.all (fun v => sha256 v.message == v.digest)

/-- The check performed by the `test_hmac` function of the hash_test
applet on the HMAC-SHA256 vectors: every computed mac equals the stored
one. -/
def hmacVectorsPass : Bool :=
  HMAC_SHA256_VECTORS.all (fun v => hmacSha256 v.key v.msg == v.mac)

end Wasefire

namespace Wasefire

/-- C1: in the schema tree returned by `serial::new()`, the five
functions read, write, register, unregister, flush carry the five
symbols usr, usw, use, usd, usf in that order, and no two functions
anywhere in the tree share a linkage symbol. -/
theorem serial_symbols_distinct :
    Item.symbols serial_new = [("usr"), ("usw"), ("use"), ("usd"), ("usf")]
      ∧ (Item.symbols serial_new).Nodup := by
  constructor
  · rfl
  · decide

/-- C2: the schema tree returned by `serial::new()` is a module named
"serial" with exactly six items in order: `read(ptr: *mut u8, len:
usize) -> (len: isize)` with symbol usr; `write(ptr: *const u8, len:
usize) -> (len: isize)` with symbol usw; `enum Event Read = 0,
Write = 1`; `register(event: usize, handler_func: fn(data: *const u8),
handler_data: *const u8) -> ()` with symbol use; `unregister(event:
usize) -> ()` with symbol usd; `flush() -> (res: isize)` with symbol
usf. -/
theorem serial_schema_shape :
    serialMod.name = ("serial")
    ∧ serialItems.length = 6
    ∧ (serialFn 0).map Fn.sig = some (("read"), ("usr"),
        [(("ptr"), FieldType.pointer true), (("len"), FieldType.integer false)],
        [(("len"), FieldType.integer true)])
    ∧ (serialFn 1).map Fn.sig = some (("write"), ("usw"),
        [(("ptr"), FieldType.pointer false), (("len"), FieldType.integer false)],
        [(("len"), FieldType.integer true)])
    ∧ (serialEnum 2).map Enum.sig = some (("Event"),
        [(("Read"), 0), (("Write"), 1)])
    ∧ (serialFn 3).map Fn.sig = some (("register"), ("use"),
        [(("event"), FieldType.integer false),
         (("handler_func"), FieldType.function
            (.cons (.mk [] ("data") (.pointer false)) .nil)),
         (("handler_data"), FieldType.pointer false)],
        [])
    ∧ (serialFn 4).map Fn.sig = some (("unregister"), ("usd"),
        [(("event"), FieldType.integer false)], [])
    ∧ (serialFn 5).map Fn.sig = some (("flush"), ("usf"), [],
        [(("res"), FieldType.integer true)]) :=
  ⟨rfl, rfl, rfl, rfl, rfl, rfl, rfl, rfl⟩

/-- C3 counterexample: it is not the case that every node of the tree
returned by `serial::new()` carries non-empty documentation — the
module itself has the empty docs list `docs!()`, and the parameter
fields of register and unregister have no doc comment at all. -/
theorem serial_not_all_documented :
    Item.allDocumented serial_new = false
      ∧ serialMod.docs = []
      ∧ (serialFn 3).map (fun f => f.params.map Field.docs) =
          some [[], [], []]
      ∧ (serialFn 4).map (fun f => f.params.map Field.docs) = some [[]] :=
  ⟨rfl, rfl, rfl, rfl⟩

/-- C3 amended: in the tree returned by `serial::new()`, the five
functions, the enumeration and its two variants all carry non-empty
documentation, and so does every parameter and result field of read,
write and flush; but the module itself and the parameter fields of
register and unregister (including the callback's inner field) carry
empty documentation. -/
theorem serial_documentation_extent :
    ((serialFn 0).map (fun f => !f.docs.isEmpty
        && f.params.all Field.deepDocumented
        && f.results.all Field.deepDocumented) = some true)
    ∧ ((serialFn 1).map (fun f => !f.docs.isEmpty
        && f.params.all Field.deepDocumented
        && f.results.all Field.deepDocumented) = some true)
    ∧ ((serialEnum 2).map (fun e => !e.docs.isEmpty
        && e.variants.all (fun v => !v.docs.isEmpty)) = some true)
    ∧ ((serialFn 3).map (fun f => !f.docs.isEmpty) = some true)
    ∧ ((serialFn 4).map (fun f => !f.docs.isEmpty) = some true)
    ∧ ((serialFn 5).map (fun f => !f.docs.isEmpty
        && f.params.all Field.deepDocumented
        && f.results.all Field.deepDocumented) = some true)
    ∧ serialMod.docs.isEmpty = true
    ∧ ((serialFn 3).map (fun f => f.params.all Field.deepDocumented) =
        some false)
    ∧ ((serialFn 4).map (fun f => f.params.all Field.deepDocumented) =
        some false) :=
  ⟨rfl, rfl, rfl, rfl, rfl, rfl, rfl, rfl, rfl⟩

/-- C4: the result of write and of flush is a single signed value, and
under the signed result convention a negative result of any magnitude
is a failure while every non-negative result, zero included, is a
success. -/
theorem signed_result_convention :
    (serialFn 1).map (fun f => f.results.map Field.ftype) =
        some [FieldType.integer true]
    ∧ (serialFn 5).map (fun f => f.results.map Field.ftype) =
        some [FieldType.integer true]
    ∧ resultIsSuccess 0 = true
    ∧ ∀ r : Int,
        (resultIsFailure r = true ↔ r < 0)
        ∧ (resultIsSuccess r = true ↔ 0 ≤ r)
        ∧ (resultIsFailure r = true ↔ resultIsSuccess r = false) := by
  refine ⟨rfl, rfl, rfl, fun r => ⟨?_, ?_, ?_⟩⟩
  · simp [resultIsFailure]
  · simp [resultIsSuccess]
  · simp [resultIsFailure, resultIsSuccess]

/-- C4 witness: the convention evaluated at -3, 2 and 0. -/
theorem signed_result_convention_witness :
    resultIsFailure (-3) = true ∧ resultIsSuccess 2 = true
      ∧ resultIsSuccess 0 = true :=
  ⟨(signed_result_convention.2.2.2 (-3)).1.mpr (by decide),
   (signed_result_convention.2.2.2 2).2.1.mpr (by decide),
   signed_result_convention.2.2.1⟩

/-- C5: a buffer length of zero is a legal argument to read, read never
blocks (its model is a total function, answering on every input), and a
zero result — forced when the buffer is empty or no data is available —
is a success under the signed result convention, never an error. -/
theorem read_zero_is_success :
    readCallLegal 0 = true
    ∧ (∀ available : Nat, readModel available 0 = 0)
    ∧ (∀ len : Nat, readModel 0 len = 0)
    ∧ (∀ available len : Nat,
        resultIsSuccess (readModel available len) = true)
    ∧ resultIsSuccess 0 = true
    ∧ resultIsFailure 0 = false
    ∧ (serialFn 0).map (fun f => f.results.map Field.ftype) =
        some [FieldType.integer true] := by
  refine ⟨rfl, fun available => ?_, fun len => ?_,
          fun available len => ?_, rfl, rfl, rfl⟩
  · simp [readModel]
  · simp [readModel]
  · simp [resultIsSuccess, readModel]

/-- C5 witness: the read model evaluated at concrete inputs. -/
theorem read_zero_is_success_witness :
    readModel 5 0 = 0 ∧ readModel 0 7 = 0
      ∧ resultIsSuccess (readModel 3 2) = true :=
  ⟨read_zero_is_success.2.1 5, read_zero_is_success.2.2.1 7,
   read_zero_is_success.2.2.2.1 3 2⟩

/-- C6: for every event identifier and from every state, register
followed by unregister leaves the event Unregistered; unregister is
idempotent; and unregister on an already Unregistered event succeeds
as a no-op, leaving the whole state unchanged. -/
theorem register_unregister_lifecycle :
    ∀ (s : SerialState) (e : EventId) (handler context : Nat),
      ((s.register e handler context).unregister e).get e =
          EventState.unregistered
      ∧ (s.unregister e).unregister e = s.unregister e
      ∧ (s.get e = EventState.unregistered → s.unregister e = s) := by
  intro s e handler context
  cases s
  cases e <;> refine ⟨rfl, rfl, fun h => ?_⟩ <;>
    · simp [SerialState.get] at h
      simp [SerialState.unregister, SerialState.set, h]

/-- C6 witness: the lifecycle run from the all-unregistered state on
the Read event with handler 5 and context 7. -/
theorem register_unregister_lifecycle_witness :
    (((SerialState.mk .unregistered .unregistered).register .read 5
        7).unregister .read).get .read = EventState.unregistered
    ∧ (SerialState.mk .unregistered .unregistered).unregister .read =
        SerialState.mk .unregistered .unregistered :=
  have h := register_unregister_lifecycle
    ⟨.unregistered, .unregistered⟩ .read 5 7
  ⟨h.1, h.2.2 rfl⟩

/-- C7: the declared discriminants of the serial module's Event
enumeration are exactly [0, 1], a raw event value decodes iff it is one
of them, and the register and unregister calls accept a raw event value
iff it decodes — so the legal runtime event values are exactly the
declared discriminant set. -/
theorem event_values_exactly_discriminants :
    serialEventValues = [0, 1]
    ∧ ∀ (s : SerialState) (n handler context : Nat),
        ((decodeEvent n).isSome ↔ n ∈ serialEventValues)
        ∧ ((registerCall s n handler context).isSome ↔
            (decodeEvent n).isSome)
        ∧ ((unregisterCall s n).isSome ↔ (decodeEvent n).isSome) := by
  refine ⟨rfl, fun s n handler context => ⟨?_, ?_, ?_⟩⟩
  · show (decodeEvent n).isSome ↔ n ∈ ([0, 1] : List Nat)
    by_cases h0 : n = 0
    · simp [decodeEvent, h0]
    · by_cases h1 : n = 1
      · simp [decodeEvent, h0, h1]
      · simp [decodeEvent, h0, h1]
  · cases h : decodeEvent n <;> simp [registerCall, h]
  · cases h : decodeEvent n <;> simp [unregisterCall, h]

/-- C7 witness: register accepts the raw value 0 from the
all-unregistered state. -/
theorem event_values_exactly_discriminants_witness :
    (registerCall (SerialState.mk .unregistered .unregistered) 0 1
      2).isSome :=
  have h := event_values_exactly_discriminants.2
    ⟨.unregistered, .unregistered⟩ 0 1 2
  h.2.1.mpr (h.1.mpr (by decide))

/-- C8: a schema in which two functions share the symbol usr fails
validation with DuplicateSymbol, and every validation error is fatal:
the generation run emits an artifact only when validation reports no
error at all, so no artifact is emitted from an invalid schema. -/
theorem validation_errors_fatal :
    SchemaError.duplicateSymbol ∈ validate badSchema
    ∧ generateArtifact badSchema = Except.error (validate badSchema)
    ∧ (∀ root : Item, validate root ≠ [] →
        ∀ a : Item, generateArtifact root ≠ Except.ok a)
    ∧ (∀ (root a : Item), generateArtifact root = Except.ok a →
        validate root = []) := by
  refine ⟨by decide, rfl, ?_, ?_⟩
  · intro root hne a
    cases h : validate root with
    | nil => exact absurd h hne
    | cons e es => simp [generateArtifact, h]
  · intro root a hok
    cases h : validate root with
    | nil => rfl
    | cons e es => simp [generateArtifact, h] at hok

/-- C8 witness: the duplicate-usr schema is rejected and yields no
artifact. -/
theorem validation_errors_fatal_witness :
    SchemaError.duplicateSymbol ∈ validate badSchema
    ∧ generateArtifact badSchema ≠ Except.ok badSchema :=
  ⟨validation_errors_fatal.1,
   validation_errors_fatal.2.2.1 badSchema (by decide) badSchema⟩

/-- C9: schema construction and validation are deterministic: any two
runs of serial::new() (a function of no input, reading no external
state) return the same tree, and validation and generation on equal
schema inputs return equal outcomes. -/
theorem construction_validation_deterministic :
    (∀ u v : Unit, serialNewRun u = serialNewRun v)
    ∧ (∀ s t : Item, s = t →
        validate s = validate t
          ∧ generateArtifact s = generateArtifact t) := by
  refine ⟨fun u v => rfl, fun s t h => ?_⟩
  subst h
  exact ⟨rfl, rfl⟩

/-- C9 witness: two runs on the unit input agree, and validation of the
serial schema agrees with itself. -/
theorem construction_validation_deterministic_witness :
    serialNewRun () = serialNewRun ()
    ∧ validate serial_new = validate serial_new :=
  ⟨construction_validation_deterministic.1 () (),
   (construction_validation_deterministic.2 serial_new serial_new rfl).1⟩

set_option maxHeartbeats 2000000 in
/-- The SHA-256 digest of the 0-byte message of vector 0 of
SHA256_VECTORS equals the stored digest. -/
theorem sha_vec_0 :
    sha256 [] =
    [227, 176, 196, 66, 152, 252, 28, 20, 154, 251, 244, 200, 153, 111, 185, 36, 39, 174, 65, 228, 100, 155, 147, 76, 164, 149, 153, 27, 120, 82, 184, 85] := by decide

set_option maxHeartbeats 2000000 in
/-- The SHA-256 digest of the 1-byte message of vector 1 of
SHA256_VECTORS equals the stored digest. -/
theorem sha_vec_1 :
    sha256 [211] =
    [40, 150, 156, 223, 167, 74, 18, 200, 47, 59, 173, 150, 11, 11, 0, 10, 202, 42, 195, 41, 222, 234, 92, 35, 40, 235, 198, 242, 186, 152, 2, 193] := by decide

set_option maxHeartbeats 2000000 in
/-- The SHA-256 digest of the 2-byte message of vector 2 of
SHA256_VECTORS equals the stored digest. -/
theorem sha_vec_2 :
    sha256 [17, 175] =
    [92, 167, 19, 63, 167, 53, 50, 96, 129, 85, 138, 195, 18, 198, 32, 238, 202, 153, 112, 209, 231, 10, 75, 149, 83, 61, 149, 111, 7, 45, 31, 152] := by decide

set_option maxHeartbeats 2000000 in
/-- The SHA-256 digest of the 10-byte message of vector 3 of
SHA256_VECTORS equals the stored digest. -/
theorem sha_vec_3 :
    sha256 [116, 203, 147, 129, 216, 159, 90, 167, 51, 104] =
    [115, 214, 250, 209, 202, 170, 117, 180, 59, 33, 115, 53, 97, 253, 57, 88, 189, 197, 85, 25, 74, 3, 124, 42, 221, 236, 25, 220, 45, 122, 82, 189] := by decide

set_option maxHeartbeats 2000000 in
/-- The SHA-256 digest of the 16-byte message of vector 4 of
SHA256_VECTORS equals the stored digest. -/
theorem sha_vec_4 :
    sha256 [10, 39, 132, 124, 220, 152, 189, 111, 98, 34, 11, 4, 110, 221, 118, 43] =
    [128, 194, 94, 193, 96, 5, 135, 231, 242, 139, 24, 177, 177, 142, 60, 220, 137, 146, 142, 57, 202, 179, 188, 37, 228, 212, 164, 193, 57, 188, 237, 196] := by decide

set_option maxHeartbeats 2000000 in
/-- The SHA-256 digest of the 28-byte message of vector 5 of
SHA256_VECTORS equals the stored digest. -/
theorem sha_vec_5 :
    sha256 [7, 119, 252, 30, 28, 164, 115, 4, 194, 226, 101, 105, 40, 56, 16, 158, 38, 170, 185, 229, 196, 174, 78, 134, 0, 223, 75, 31] =
    [255, 180, 252, 3, 224, 84, 248, 236, 188, 49, 71, 15, 192, 35, 190, 220, 212, 164, 6, 185, 221, 86, 199, 29, 161, 182, 96, 220, 196, 132, 44, 101] := by decide

set_option maxHeartbeats 2000000 in
/-- The SHA-256 digest of the 46-byte message of vector 6 of
SHA256_VECTORS equals the stored digest. -/
theorem sha_vec_6 :
    sha256 [157, 100, 222, 113, 97, 137, 88, 132, 231, 250, 61, 110, 158, 185, 150, 231, 235, 229, 17, 176, 31, 225, 156, 212, 166, 179, 50, 46, 128, 170, 245, 43, 246, 68, 126, 209, 133, 78, 113, 0, 31, 77, 84, 248, 147, 29] =
    [208, 72, 238, 21, 36, 1, 74, 223, 154, 86, 230, 10, 56, 130, 119, 222, 25, 76, 105, 76, 199, 135, 252, 90, 27, 85, 78, 169, 240, 122, 191, 223] := by decide

set_option maxHeartbeats 8000000 in
/-- The HMAC-SHA256 of the (key, msg) pair of count-30 vector of
HMAC_SHA256_VECTORS equals the stored mac. -/
theorem hmac_vec_30 :
    hmacSha256
      [151, 121, 217, 18, 6, 66, 121, 127, 23, 71, 2, 93, 91, 34, 183, 172, 96, 124, 171, 8, 225, 117, 143, 47, 58, 70, 200, 190, 30, 37, 197, 59, 140, 106, 143, 88, 255, 239, 161, 118]
      [177, 104, 156, 37, 145, 234, 243, 201, 230, 96, 112, 248, 167, 121, 84, 255, 184, 23, 73, 241, 176, 3, 70, 249, 223, 224, 178, 238, 144, 93, 204, 40, 139, 175, 74, 146, 222, 63, 64, 1, 221, 159, 68, 196, 104, 195, 208, 125, 108, 110, 232, 47, 172, 234, 252, 151, 194, 252, 15, 192, 96, 23, 25, 210, 220, 208, 170, 42, 236, 146, 209, 176, 174, 147, 60, 101, 235, 6, 160, 60, 156, 147, 92, 43, 173, 4, 89, 129, 2, 65, 52, 122, 184, 126, 159, 17, 173, 179, 4, 21, 66, 76, 108, 127, 95, 34, 160, 3, 184, 171, 141, 229, 79, 109, 237, 14, 58, 185, 36, 95, 167, 149, 104, 69, 29, 250, 37, 142] =
    [118, 159, 0, 211, 230, 166, 204, 31, 180, 38, 161, 74, 79, 118, 198, 70, 46, 97, 73, 114, 110, 13, 238, 14, 192, 207, 151, 161, 102, 5, 172, 139] := by decide

set_option maxHeartbeats 8000000 in
/-- The HMAC-SHA256 of the (key, msg) pair of count-31 vector of
HMAC_SHA256_VECTORS equals the stored mac. -/
theorem hmac_vec_31 :
    hmacSha256
      [9, 103, 95, 45, 204, 71, 131, 181, 153, 241, 143, 183, 101, 88, 54, 104, 160, 253, 138, 228, 9, 111, 111, 205, 198, 13, 79, 53, 180, 19, 15, 190, 252, 213, 66, 255, 231, 69, 157, 42]
      [12, 242, 25, 140, 49, 55, 111, 92, 137, 21, 102, 1, 55, 114, 95, 43, 188, 24, 10, 152, 110, 90, 123, 218, 39, 250, 129, 89, 58, 74, 51, 155, 171, 146, 203, 195, 159, 178, 184, 88, 17, 8, 238, 72, 199, 148, 129, 45, 132, 90, 114, 206, 128, 8, 201, 233, 21, 217, 227, 48, 187, 185, 14, 145, 54, 170, 83, 186, 14, 102, 147, 221, 64, 70, 214, 176, 51, 98, 223, 185, 237, 250, 4, 200, 135, 21, 60, 197, 222, 103, 122, 171, 140, 120, 57, 213, 23, 3, 88, 121, 103, 156, 41, 114, 126, 150, 197, 66, 99, 36, 162, 87, 95, 190, 103, 141, 108, 199, 254, 245, 235, 108, 235, 213, 149, 207, 221, 239] =
    [107, 20, 45, 77, 254, 33, 127, 24, 129, 170, 14, 100, 131, 178, 113, 221, 93, 67, 247, 11, 133, 96, 89, 83, 160, 254, 242, 114, 221, 222, 70, 202] := by decide

set_option maxHeartbeats 8000000 in
/-- The HMAC-SHA256 of the (key, msg) pair of count-32 vector of
HMAC_SHA256_VECTORS equals the stored mac. -/
theorem hmac_vec_32 :
    hmacSha256
      [207, 212, 164, 73, 16, 201, 229, 103, 80, 122, 187, 108, 237, 228, 254, 96, 26, 122, 39, 101, 201, 117, 90, 162, 207, 107, 164, 129, 66, 35, 129, 26, 38, 168, 161, 239, 73, 156, 235, 217]
      [63, 179, 1, 203, 64, 146, 249, 98, 58, 165, 255, 214, 144, 210, 45, 101, 213, 110, 90, 28, 51, 11, 156, 74, 13, 145, 12, 52, 227, 145, 201, 10, 118, 213, 64, 26, 45, 60, 170, 68, 184, 197, 213, 174, 243, 233, 40, 185, 13, 46, 226, 51, 233, 249, 162, 206, 196, 163, 44, 208, 25, 208, 106, 13, 193, 252, 177, 18, 95, 87, 70, 164, 251, 211, 33, 105, 237, 123, 240, 228, 253, 6, 95, 167, 200, 172, 151, 195, 102, 56, 4, 132, 73, 95, 92, 91, 104, 80, 221, 28, 157, 140, 214, 105, 76, 248, 104, 110, 70, 48, 142, 208, 237, 31, 91, 223, 152, 205, 131, 19, 57, 119, 29, 182, 61, 229, 167, 222] =
    [32, 21, 59, 248, 234, 41, 83, 196, 130, 81, 235, 204, 65, 97, 248, 182, 226, 132, 153, 229, 199, 108, 36, 1, 76, 255, 74, 158, 47, 98, 210, 92] := by decide

set_option maxHeartbeats 8000000 in
/-- The HMAC-SHA256 of the (key, msg) pair of count-33 vector of
HMAC_SHA256_VECTORS equals the stored mac. -/
theorem hmac_vec_33 :
    hmacSha256
      [84, 72, 153, 143, 157, 143, 152, 83, 74, 221, 240, 200, 186, 99, 28, 73, 107, 248, 168, 0, 108, 187, 70, 173, 21, 250, 31, 162, 245, 83, 103, 18, 12, 25, 52, 140, 58, 250, 144, 195]
      [28, 67, 150, 247, 183, 249, 34, 142, 131, 42, 19, 105, 32, 2, 186, 42, 255, 67, 157, 203, 127, 221, 191, 212, 86, 192, 34, 209, 51, 238, 137, 3, 162, 212, 130, 86, 47, 218, 164, 147, 206, 57, 22, 215, 122, 12, 81, 68, 29, 171, 38, 246, 176, 52, 2, 56, 163, 106, 113, 248, 127, 195, 225, 121, 202, 188, 169, 72, 43, 112, 73, 113, 206, 105, 243, 242, 10, 182, 75, 112, 65, 61, 108, 41, 8, 83, 43, 42, 136, 138, 159, 194, 36, 202, 225, 54, 93, 164, 16, 182, 242, 226, 152, 144, 75, 99, 180, 164, 23, 38, 50, 24, 53, 164, 119, 77, 208, 99, 194, 17, 207, 200, 181, 22, 108, 45, 17, 162] =
    [126, 140, 186, 157, 217, 240, 110, 189, 215, 249, 46, 15, 26, 103, 199, 244, 223, 82, 105, 60, 33, 43, 221, 132, 246, 115, 112, 179, 81, 83, 60, 108] := by decide

set_option maxHeartbeats 8000000 in
/-- The HMAC-SHA256 of the (key, msg) pair of count-34 vector of
HMAC_SHA256_VECTORS equals the stored mac. -/
theorem hmac_vec_34 :
    hmacSha256
      [157, 160, 193, 20, 104, 47, 130, 193, 209, 233, 181, 68, 48, 88, 11, 156, 86, 148, 137, 202, 22, 185, 46, 225, 4, 152, 213, 93, 124, 173, 93, 181, 230, 82, 6, 52, 57, 49, 30, 4]
      [73, 83, 64, 139, 227, 221, 222, 66, 82, 30, 182, 37, 163, 122, 240, 210, 207, 158, 209, 132, 245, 182, 39, 229, 231, 224, 232, 36, 232, 225, 22, 72, 180, 24, 229, 196, 193, 176, 32, 75, 197, 25, 201, 229, 120, 184, 0, 67, 155, 221, 37, 79, 57, 246, 65, 8, 45, 3, 162, 141, 228, 74, 198, 119, 100, 76, 123, 108, 141, 247, 67, 242, 159, 29, 253, 128, 253, 37, 194, 219, 49, 1, 14, 160, 47, 96, 32, 28, 222, 36, 163, 100, 212, 22, 141, 162, 97, 216, 72, 174, 208, 28, 16, 222, 233, 20, 156, 30, 187, 41, 0, 67, 152, 240, 210, 156, 96, 90, 139, 202, 3, 43, 49, 210, 65, 173, 51, 113] =
    [205, 234, 207, 206, 191, 70, 204, 157, 126, 77, 65, 117, 229, 216, 210, 103, 194, 58, 100, 205, 232, 62, 134, 126, 80, 1, 236, 242, 111, 189, 48, 210] := by decide

/-- C10: every test vector of the hash_test applet checks out: the
SHA-256 digest of each message in SHA256_VECTORS equals its stored
digest — in particular the digest of the empty message is
e3b0c44298fc1c149afbf4c8996fb92427ae41e4649b934ca495991b7852b855 —
and the HMAC-SHA256 of each (key, msg) pair in HMAC_SHA256_VECTORS
equals its stored mac. -/
theorem hash_test_vectors_pass :
    shaVectorsPass = true
    ∧ hmacVectorsPass = true
    ∧ sha256 [] = [227, 176, 196, 66, 152, 252, 28, 20, 154, 251, 244,
        200, 153, 111, 185, 36, 39, 174, 65, 228, 100, 155, 147, 76,
        164, 149, 153, 27, 120, 82, 184, 85] := by
  refine ⟨?_, ?_, sha_vec_0⟩
  · simp [shaVectorsPass, SHA256_VECTORS, sha_vec_0, sha_vec_1, sha_vec_2,
      sha_vec_3, sha_vec_4, sha_vec_5, sha_vec_6]
  · simp [hmacVectorsPass, HMAC_SHA256_VECTORS, hmac_vec_30, hmac_vec_31,
      hmac_vec_32, hmac_vec_33, hmac_vec_34]

end Wasefire
